import Mathlib

/-!
Verification of the proxmox-cli session/auth core (Go sources under
`services/`), shallowly embedded in Lean 4.

Modelling conventions:
* The single on-disk session file is modelled by `SessionFile`:
  `absent` (no file), `empty` (zero-byte placeholder / truncated file),
  or `stored d` (the file holds the JSON encoding of record `d`; Go's
  `encoding/json` round-trips `SessionData` exactly, so we keep the
  decoded value).
* The HTTP transport interface (`HttpServiceInterface`) is a function
  from calls to results; operations additionally return the list of
  transport calls they issued, so "no network access" is provable.
* Go's `json.Unmarshal` on the response types used by the code is
  modelled by an executable JSON parser plus decoders following the
  stdlib's documented semantics (later duplicate keys win,
  case-insensitive field match, `null` leaves the zero value).
* Filesystem write faults are modelled by a boolean `encodeOk` on
  `WriteSessionFile`: `os.Create` (truncation) always succeeds, and the
  subsequent `Encoder.Encode` either succeeds or fails.
-/

namespace ProxmoxCli

/-- Embedding of `SessionDataResponse.Data` from `services/session.go`: the nested
authentication payload (`username`, `ticket`, `CSRFPreventionToken`). -/
structure SessionDataInner where
  username : String
  ticket : String
  csrfPreventionToken : String
  deriving Repr, DecidableEq

/-- Embedding of `SessionDataResponse` from `services/session.go`: wrapper around the
`data` object mirroring the remote API envelope. -/
structure SessionDataResponse where
  data : SessionDataInner
  deriving Repr, DecidableEq

/-- Embedding of `SessionData` from `services/session.go`: the persisted session record. -/
structure SessionData where
  server : String
  port : Int
  httpScheme : String
  response : SessionDataResponse
  deriving Repr, DecidableEq

/-- Go zero value of the nested authentication payload. -/
def SessionDataInner.zero : SessionDataInner :=
  { username := "", ticket := "", csrfPreventionToken := "" }

/-- Go zero value of `SessionDataResponse`. -/
def SessionDataResponse.zero : SessionDataResponse :=
  { data := SessionDataInner.zero }

/-- State of the session file on disk. -/
inductive SessionFile where
  /-- No session file exists. -/
  | absent : SessionFile
  /-- The file exists but is empty (placeholder created by
  `getSessionFilepath`, or a file truncated by `os.Create`). -/
  | empty : SessionFile
  /-- The file holds the JSON encoding of `d`. -/
  | stored (d : SessionData) : SessionFile
  deriving Repr, DecidableEq

/-- Embedding of `getSessionFilepath` from `services/session.go`: resolves the fixed
path, creating the directory and an empty placeholder file when the file
does not exist yet.  Path resolution itself always succeeds in the model. -/
def getSessionFilepath (st : SessionFile) : SessionFile :=
  match st with
  | .absent => .empty
  | st => st

/-- Embedding of `SessionService.WriteSessionFile` from `services/session.go`:
resolves the path, `os.Create`s (truncates) the file, then JSON-encodes
the record into it.  `encodeOk` injects the only modelled fault: whether
the `Encoder.Encode` call succeeds.  Note the truncation happens before
the encode, so a failed encode leaves the file empty. -/
def WriteSessionFile (encodeOk : Bool) (st : SessionFile) (d : SessionData) :
    Except String Unit × SessionFile :=
  let _ := getSessionFilepath st
  -- os.Create truncates the file to zero bytes.
  let stTrunc : SessionFile := .empty
  if encodeOk then (.ok (), .stored d) else (.error "encode error", stTrunc)

/-- The six validation error messages of `ReadSessionFile`, in check order. -/
def msgMissingServer : String := "invalid session: missing server"

def msgMissingPort : String := "invalid session: missing or invalid port"

def msgMissingScheme : String := "invalid session: missing httpScheme"

def msgMissingUsername : String := "invalid session: missing 'username' field in data"

def msgMissingTicket : String := "invalid session: missing 'ticket' field in data"

def msgMissingToken : String := "invalid session: missing 'CSRFPreventionToken' field in data"

/-- The validation chain of `SessionService.ReadSessionFile`
(`services/session.go`), applied to a successfully decoded record. -/
def validateSessionData (d : SessionData) : Except String SessionData :=
  if d.server = "" then .error msgMissingServer
  else if d.port ≤ 0 then .error msgMissingPort
  else if d.httpScheme = "" then .error msgMissingScheme
  else if d.response.data.username = "" then .error msgMissingUsername
  else if d.response.data.ticket = "" then .error msgMissingTicket
  else if d.response.data.csrfPreventionToken = "" then .error msgMissingToken
  else .ok d

/-- All six required fields are present and the port is positive. -/
def SessionData.Valid (d : SessionData) : Prop :=
  d.server ≠ "" ∧ 0 < d.port ∧ d.httpScheme ≠ "" ∧
    d.response.data.username ≠ "" ∧ d.response.data.ticket ≠ "" ∧
    d.response.data.csrfPreventionToken ≠ ""

instance (d : SessionData) : Decidable d.Valid := by
  unfold SessionData.Valid; infer_instance

/-- Embedding of `SessionService.ReadSessionFile` from `services/session.go`: resolve
the path (creating a placeholder if needed), open the file, JSON-decode
it (an empty file yields `EOF`), then validate the six required fields.
Returns the result together with the resulting file state (reading never
rewrites an existing file). -/
def ReadSessionFile (st : SessionFile) :
    Except String SessionData × SessionFile :=
  let st' := getSessionFilepath st
  match st' with
  | .absent => (.error "EOF", st')   -- unreachable: getSessionFilepath created it
  | .empty => (.error "EOF", st')
  | .stored d => (validateSessionData d, st')

/-! ### JSON values and parsing

Modelled from Go's `encoding/json` as used by the code: `json.Unmarshal`
parses exactly one JSON value (surrounding whitespace allowed, trailing
data rejected) and decodes it into the target struct. -/

/-- A parsed JSON value.  Numbers keep their raw text: no operation in
the verified code interprets a numeric response field. -/
inductive Json where
  | null : Json
  | bool (b : Bool) : Json
  | num (raw : String) : Json
  | str (s : String) : Json
  | arr (elems : List Json) : Json
  | obj (members : List (String × Json)) : Json

/-- JSON insignificant whitespace. -/
def isJsonWs (c : Char) : Bool :=
  c = ' ' || c = '\t' || c = '\n' || c = '\r'

/-- Drop leading JSON whitespace. -/
def skipWs (cs : List Char) : List Char :=
  cs.dropWhile isJsonWs

/-- Value of a hex digit, if any. -/
def hexVal (c : Char) : Option Nat :=
  if '0' ≤ c ∧ c ≤ '9' then some (c.toNat - '0'.toNat)
  else if 'a' ≤ c ∧ c ≤ 'f' then some (c.toNat - 'a'.toNat + 10)
  else if 'A' ≤ c ∧ c ≤ 'F' then some (c.toNat - 'A'.toNat + 10)
  else none

/-- Parse the body of a JSON string (after the opening quote), handling
the escape sequences of RFC 8259.  `\uXXXX` is decoded to the scalar
value when it is one (surrogate-pair recombination is not modelled; the
code under verification never receives surrogate escapes). -/
def parseStringBody : List Char → String → Except String (String × List Char)
  | [], _ => .error "unexpected end of JSON input"
  | '"' :: rest, acc => .ok (acc, rest)
  | '\\' :: esc, acc =>
    match esc with
    | '"' :: rest => parseStringBody rest (acc.push '"')
    | '\\' :: rest => parseStringBody rest (acc.push '\\')
    | '/' :: rest => parseStringBody rest (acc.push '/')
    | 'b' :: rest => parseStringBody rest (acc.push (Char.ofNat 8))
    | 'f' :: rest => parseStringBody rest (acc.push (Char.ofNat 12))
    | 'n' :: rest => parseStringBody rest (acc.push '\n')
    | 'r' :: rest => parseStringBody rest (acc.push '\r')
    | 't' :: rest => parseStringBody rest (acc.push '\t')
    | 'u' :: h1 :: h2 :: h3 :: h4 :: rest =>
      match hexVal h1, hexVal h2, hexVal h3, hexVal h4 with
      | some a, some b, some c, some d =>
        let n := ((a * 16 + b) * 16 + c) * 16 + d
        if n < 0xD800 ∨ 0xE000 ≤ n then
          parseStringBody rest (acc.push (Char.ofNat n))
        else
          .error "unsupported surrogate escape"
      | _, _, _, _ => .error "invalid hex escape in string literal"
    | _ => .error "invalid escape in string literal"
  | c :: rest, acc => parseStringBody rest (acc.push c)

/-- Decimal digit test, `'0'` through `'9'`. -/
def isDigitChar (c : Char) : Bool := '0' ≤ c && c ≤ '9'

/-- Check a lexed number against the JSON number grammar
`-?(0|[1-9][0-9]*)(\.[0-9]+)?([eE][+-]?[0-9]+)?`. -/
def numShapeOk (cs : List Char) : Bool :=
  let afterSign := match cs with
    | '-' :: rest => rest
    | rest => rest
  let (intOk, afterInt) :=
    match afterSign with
    | '0' :: rest => (true, rest)
    | c :: rest =>
      if isDigitChar c then (true, rest.dropWhile isDigitChar) else (false, rest)
    | [] => (false, [])
  let (fracOk, afterFrac) :=
    match afterInt with
    | '.' :: rest =>
      match rest with
      | c :: _ => if isDigitChar c then (true, rest.dropWhile isDigitChar) else (false, rest)
      | [] => (false, [])
    | rest => (true, rest)
  let (expOk, afterExp) :=
    match afterFrac with
    | c :: rest =>
      if c = 'e' ∨ c = 'E' then
        let rest' := match rest with
          | '+' :: r => r
          | '-' :: r => r
          | r => r
        match rest' with
        | d :: _ => if isDigitChar d then (true, rest'.dropWhile isDigitChar) else (false, rest')
        | [] => (false, [])
      else (true, c :: rest)
    | [] => (true, [])
  intOk && fracOk && expOk && afterExp.isEmpty

/-- Characters that may appear inside a JSON number literal. -/
def isNumChar (c : Char) : Bool :=
  isDigitChar c || c = '-' || c = '+' || c = '.' || c = 'e' || c = 'E'

mutual

/-- Recursive-descent parser for one JSON value, fuelled by `Nat`.
Leading whitespace is skipped. -/
def parseValue : Nat → List Char → Except String (Json × List Char)
  | 0, _ => .error "JSON nesting too deep"
  | fuel + 1, cs =>
    match skipWs cs with
    | [] => .error "unexpected end of JSON input"
    | 'n' :: 'u' :: 'l' :: 'l' :: rest => .ok (.null, rest)
    | 't' :: 'r' :: 'u' :: 'e' :: rest => .ok (.bool true, rest)
    | 'f' :: 'a' :: 'l' :: 's' :: 'e' :: rest => .ok (.bool false, rest)
    | '"' :: rest =>
      match parseStringBody rest "" with
      | .ok (s, rest') => .ok (.str s, rest')
      | .error e => .error e
    | '[' :: rest =>
      (match skipWs rest with
       | ']' :: rest' => .ok (.arr [], rest')
       | _ => parseElems fuel rest [])
    | '{' :: rest =>
      (match skipWs rest with
       | '}' :: rest' => .ok (.obj [], rest')
       | _ => parseMembers fuel rest [])
    | c :: rest =>
      if isDigitChar c ∨ c = '-' then
        let lit := (c :: rest).takeWhile isNumChar
        if numShapeOk lit then
          .ok (.num (String.mk lit), (c :: rest).dropWhile isNumChar)
        else .error "invalid number literal"
      else .error "invalid character looking for beginning of value"

/-- Parse the remaining elements of a non-empty JSON array. -/
def parseElems : Nat → List Char → List Json → Except String (Json × List Char)
  | 0, _, _ => .error "JSON nesting too deep"
  | fuel + 1, cs, acc =>
    match parseValue fuel cs with
    | .error e => .error e
    | .ok (v, rest) =>
      match skipWs rest with
      | ',' :: rest' => parseElems fuel rest' (acc ++ [v])
      | ']' :: rest' => .ok (.arr (acc ++ [v]), rest')
      | _ => .error "invalid character after array element"

/-- Parse the remaining members of a non-empty JSON object. -/
def parseMembers : Nat → List Char → List (String × Json) →
    Except String (Json × List Char)
  | 0, _, _ => .error "JSON nesting too deep"
  | fuel + 1, cs, acc =>
    match skipWs cs with
    | '"' :: rest =>
      (match parseStringBody rest "" with
       | .error e => .error e
       | .ok (key, rest') =>
         match skipWs rest' with
         | ':' :: rest'' =>
           (match parseValue fuel rest'' with
            | .error e => .error e
            | .ok (v, rest3) =>
              match skipWs rest3 with
              | ',' :: rest4 => parseMembers fuel rest4 (acc ++ [(key, v)])
              | '}' :: rest4 => .ok (.obj (acc ++ [(key, v)]), rest4)
              | _ => .error "invalid character after object member")
         | _ => .error "invalid character after object key")
    | _ => .error "invalid character looking for object key"

end

/-- Parsing step of `json.Unmarshal`: exactly one JSON value with only
whitespace around it. -/
def parseJson (s : String) : Except String Json :=
  match parseValue (s.length + 1) s.toList with
  | .error e => .error e
  | .ok (v, rest) =>
    if (skipWs rest).isEmpty then .ok v
    else .error "invalid character after top-level value"

/-- ASCII lower-casing of one character. -/
def asciiLower (c : Char) : Char :=
  if 'A' ≤ c ∧ c ≤ 'Z' then Char.ofNat (c.toNat + 32) else c

/-- ASCII lower-casing of a string. -/
def asciiLowerStr (s : String) : String :=
  String.mk (s.toList.map asciiLower)

/-- Go's struct-field matching for JSON keys: an exact match, with a
case-insensitive fallback (ASCII folding approximates
`strings.EqualFold`). -/
def keyMatches (key field : String) : Bool :=
  key = field || asciiLowerStr key = asciiLowerStr field

/-- Decode one JSON value into `SessionDataResponse.Data`
(Go semantics: `null` leaves the current value, an object sets matching
string fields — later duplicates win — and any other value is a type
error; a non-string value for a string field is a type error). -/
def decodeInnerField (cur : SessionDataInner) (kv : String × Json) :
    Except String SessionDataInner :=
  if keyMatches kv.1 "username" then
    match kv.2 with
    | .str s => .ok { cur with username := s }
    | .null => .ok cur
    | _ => .error "json: cannot unmarshal value into field username of type string"
  else if keyMatches kv.1 "ticket" then
    match kv.2 with
    | .str s => .ok { cur with ticket := s }
    | .null => .ok cur
    | _ => .error "json: cannot unmarshal value into field ticket of type string"
  else if keyMatches kv.1 "CSRFPreventionToken" then
    match kv.2 with
    | .str s => .ok { cur with csrfPreventionToken := s }
    | .null => .ok cur
    | _ => .error "json: cannot unmarshal value into field CSRFPreventionToken of type string"
  else .ok cur

/-- Decode a JSON value into the nested `data` struct. -/
def decodeInner (cur : SessionDataInner) : Json → Except String SessionDataInner
  | .null => .ok cur
  | .obj members => members.foldlM decodeInnerField cur
  | _ => .error "json: cannot unmarshal value into field data of type struct"

/-- Decode one object member into a `SessionDataResponse` under
construction. -/
def decodeResponseField (cur : SessionDataResponse) (kv : String × Json) :
    Except String SessionDataResponse :=
  if keyMatches kv.1 "data" then
    match decodeInner cur.data kv.2 with
    | .ok inner => .ok { cur with data := inner }
    | .error e => .error e
  else .ok cur

/-- Embedding of `json.Unmarshal(body, &resp)` for `resp : SessionDataResponse`
(`services/auth.go`): parse, then decode starting from the zero value. -/
def unmarshalSessionDataResponse (s : String) :
    Except String SessionDataResponse :=
  match parseJson s with
  | .error e => .error e
  | .ok .null => .ok SessionDataResponse.zero
  | .ok (.obj members) => members.foldlM decodeResponseField SessionDataResponse.zero
  | .ok _ => .error "json: cannot unmarshal value into type SessionDataResponse"

/-- Embedding of `json.Unmarshal(body, &result)` for `result : VMCreateResponse`
(a struct whose single field `Data` is a string — `services/vm.go`). -/
def unmarshalDataString (s : String) : Except String String :=
  match parseJson s with
  | .error e => .error e
  | .ok .null => .ok ""
  | .ok (.obj members) =>
    members.foldlM (fun cur kv =>
      if keyMatches kv.1 "data" then
        match kv.2 with
        | .str v => .ok v
        | .null => .ok cur
        | _ => .error "json: cannot unmarshal value into field data of type string"
      else .ok cur) ""
  | .ok _ => .error "json: cannot unmarshal value into type VMCreateResponse"

/-- The `{ "data": <payload> }` envelope decode used by the list/status
accessors (`NodeListResponse`, `NodeStatusResponse`, `VMListResponse`,
...).  The per-field typed projection of the payload is abstracted: the
accessor's result is the raw `data` member (Go's zero value `Json.null`
when absent or when the whole document is `null`).  Parse errors are
surfaced as in Go. -/
def unmarshalDataPayload (s : String) : Except String Json :=
  match parseJson s with
  | .error e => .error e
  | .ok .null => .ok .null
  | .ok (.obj members) =>
    .ok (members.foldl (fun cur kv =>
      if keyMatches kv.1 "data" then kv.2 else cur) .null)
  | .ok _ => .error "json: cannot unmarshal value into envelope struct"

/-! ### `url.QueryEscape`

Modelled from Go's `net/url`: every byte of the UTF-8 encoding is kept
when alphanumeric or one of `-_.~`, a space becomes `+`, and any other
byte becomes `%XX` with uppercase hex. -/

/-- UTF-8 encoding of a character as byte values. -/
def utf8Bytes (c : Char) : List Nat :=
  let n := c.toNat
  if n < 0x80 then [n]
  else if n < 0x800 then
    [0xC0 ||| (n >>> 6), 0x80 ||| (n &&& 0x3F)]
  else if n < 0x10000 then
    [0xE0 ||| (n >>> 12), 0x80 ||| ((n >>> 6) &&& 0x3F), 0x80 ||| (n &&& 0x3F)]
  else
    [0xF0 ||| (n >>> 18), 0x80 ||| ((n >>> 12) &&& 0x3F),
      0x80 ||| ((n >>> 6) &&& 0x3F), 0x80 ||| (n &&& 0x3F)]

/-- Uppercase hex digit for a value below 16. -/
def hexDigitUpper (n : Nat) : Char :=
  if n < 10 then Char.ofNat ('0'.toNat + n) else Char.ofNat ('A'.toNat + n - 10)

/-- Escape a single byte per `url.QueryEscape`. -/
def queryEscapeByte (n : Nat) : List Char :=
  if (48 ≤ n ∧ n ≤ 57) ∨ (65 ≤ n ∧ n ≤ 90) ∨ (97 ≤ n ∧ n ≤ 122) ∨
      n = 45 ∨ n = 95 ∨ n = 46 ∨ n = 126 then
    [Char.ofNat n]
  else if n = 32 then ['+']
  else ['%', hexDigitUpper (n / 16), hexDigitUpper (n % 16)]

/-- Go's `url.QueryEscape`. -/
def queryEscape (s : String) : String :=
  String.mk ((s.toList.flatMap utf8Bytes).flatMap queryEscapeByte)

/-! ### Transport

`HttpServiceInterface` as consumed by the services: the four verbs with
URL, optional payload, header map and cookie list.  A transport is a
function from calls to `Except` results; for `Get` the result string
stands for the response body after the caller's `io.ReadAll` (an error at
either stage is a transport error at this abstraction).  Operations also
return the list of calls they issued. -/

/-- One invocation of the transport interface. -/
inductive HttpCall where
  | get (url : String) (headers : List (String × String))
      (cookies : List (String × String)) : HttpCall
  | post (url : String) (payload : String) (headers : List (String × String))
      (cookies : List (String × String)) : HttpCall
  | put (url : String) (payload : String) (headers : List (String × String))
      (cookies : List (String × String)) : HttpCall
  | delete (url : String) (headers : List (String × String))
      (cookies : List (String × String)) : HttpCall

/-- A test double / environment for `HttpServiceInterface`. -/
def Transport : Type := HttpCall → Except String String

/-- The shared `UrlEncodedHeader` map (`services/http.go`). -/
def urlEncodedHeader : List (String × String) :=
  [("Content-Type", "application/x-www-form-urlencoded; charset=UTF-8")]

/-! ### Session field update and the auth manager -/

/-- A Go `interface{}` argument as passed to `UpdateSessionField`. -/
inductive GoValue where
  | str (s : String) : GoValue
  | int (n : Int) : GoValue
  | other : GoValue

/-- Embedding of `SessionService.UpdateSessionField` from `services/session.go`: read
the current record, mutate one named field, write the result back.
`server`/`port`/`httpScheme` use an unchecked type assertion (a Go panic
on a wrongly-typed value is modelled as a distinguished error — no
verified claim exercises that path); `response` uses a checked assertion
and silently skips non-string values; unknown field names fall through
to a no-op write of the unchanged record. -/
def UpdateSessionField (encodeOk : Bool) (st : SessionFile)
    (field : String) (value : GoValue) : Except String Unit × SessionFile :=
  match ReadSessionFile st with
  | (.error e, st') => (.error e, st')
  | (.ok d, st') =>
    let upd : Except String SessionData :=
      if field = "server" then
        match value with
        | .str s => .ok { d with server := s }
        | _ => .error "panic: interface conversion"
      else if field = "port" then
        match value with
        | .int n => .ok { d with port := n }
        | _ => .error "panic: interface conversion"
      else if field = "httpScheme" then
        match value with
        | .str s => .ok { d with httpScheme := s }
        | _ => .error "panic: interface conversion"
      else if field = "response" then
        match value with
        | .str s =>
          (match unmarshalSessionDataResponse s with
           | .ok resp => .ok { d with response := resp }
           | .error e => .error e)
        | _ => .ok d
      else .ok d
    match upd with
    | .error e => (.error e, st')
    | .ok d' => WriteSessionFile encodeOk st' d'

/-- The ticket-issuance endpoint URL built by both `LoginToProxmox` and
`ValidateSession` (`services/auth.go`). -/
def ticketUri (httpScheme server : String) (port : Int) : String :=
  httpScheme ++ "://" ++ server ++ ":" ++ toString port ++ "/api2/json/access/ticket"

/-- Embedding of `AuthService.LoginToProxmox` from `services/auth.go`: form-encoded
POST to the ticket endpoint with the caller's credentials, realm `pam`
and the new-format flag; decode the body into `SessionDataResponse`;
write a brand-new session record.  Returns the result, the session file
afterwards and the transport calls issued. -/
def LoginToProxmox (t : Transport) (encodeOk : Bool) (st : SessionFile)
    (server : String) (port : Int) (httpScheme username password : String) :
    Except String Unit × SessionFile × List HttpCall :=
  let uri := ticketUri httpScheme server port
  let payload := "username=" ++ username ++ "&password=" ++ password ++
    "&realm=pam&new-format=1"
  let call := HttpCall.post uri payload urlEncodedHeader []
  match t call with
  | .error e => (.error e, st, [call])
  | .ok body =>
    match unmarshalSessionDataResponse body with
    | .error e => (.error e, st, [call])
    | .ok resp =>
      match WriteSessionFile encodeOk st
          { server := server, port := port, httpScheme := httpScheme,
            response := resp } with
      | (.error e, st') => (.error e, st', [call])
      | (.ok _, st') => (.ok (), st', [call])

/-- Embedding of `AuthService.ValidateSession` from `services/auth.go`: read the
stored record (false on failure, before any network access); POST to the
ticket endpoint with the stored username and the URL-escaped stored
ticket as the password, the stored anti-forgery token as the
`CSRFPreventionToken` header and the URL-escaped stored ticket as the
`PVEAuthCookie` cookie; on success store the response body as the new
authentication payload. -/
def ValidateSession (t : Transport) (encodeOk : Bool) (st : SessionFile) :
    Bool × SessionFile × List HttpCall :=
  match ReadSessionFile st with
  | (.error _, st') => (false, st', [])
  | (.ok d, st') =>
    let uri := ticketUri d.httpScheme d.server d.port
    let payload := "username=" ++ d.response.data.username ++ "&password=" ++
      queryEscape d.response.data.ticket
    let headers :=
      [("Content-Type", "application/x-www-form-urlencoded; charset=UTF-8"),
       ("CSRFPreventionToken", d.response.data.csrfPreventionToken)]
    let cookies := [("PVEAuthCookie", queryEscape d.response.data.ticket)]
    let call := HttpCall.post uri payload headers cookies
    match t call with
    | .error _ => (false, st', [call])
    | .ok body =>
      match UpdateSessionField encodeOk st' "response" (.str body) with
      | (.error _, st'') => (false, st'', [call])
      | (.ok _, st'') => (true, st'', [call])

/-! ### Resource accessors (`services/nodes.go`, `services/vm.go`) -/

/-- The `PVEAuthCookie` cookie list every accessor attaches. -/
def authCookie (d : SessionData) : List (String × String) :=
  [("PVEAuthCookie", queryEscape d.response.data.ticket)]

/-- Base URL prefix `scheme://server:port` from the stored record. -/
def baseUrl (d : SessionData) : String :=
  d.httpScheme ++ "://" ++ d.server ++ ":" ++ toString d.port

/-- Embedding of `NodesService.ListNodes`: GET `/api2/json/nodes` with the auth
cookie, decode the `data` envelope. -/
def ListNodes (t : Transport) (st : SessionFile) :
    Except String Json × SessionFile × List HttpCall :=
  match ReadSessionFile st with
  | (.error e, st') => (.error e, st', [])
  | (.ok d, st') =>
    let call := HttpCall.get (baseUrl d ++ "/api2/json/nodes") [] (authCookie d)
    match t call with
    | .error e => (.error e, st', [call])
    | .ok body => (unmarshalDataPayload body, st', [call])

/-- Embedding of `NodesService.GetNodeStatus`: GET `/api2/json/nodes/<node>/status`. -/
def GetNodeStatus (t : Transport) (st : SessionFile) (nodeName : String) :
    Except String Json × SessionFile × List HttpCall :=
  match ReadSessionFile st with
  | (.error e, st') => (.error e, st', [])
  | (.ok d, st') =>
    let call := HttpCall.get (baseUrl d ++ "/api2/json/nodes/" ++ nodeName ++ "/status")
      [] (authCookie d)
    match t call with
    | .error e => (.error e, st', [call])
    | .ok body => (unmarshalDataPayload body, st', [call])

/-- Embedding of `NodesService.GetNodeVersion`: GET `/api2/json/nodes/<node>/version`. -/
def GetNodeVersion (t : Transport) (st : SessionFile) (nodeName : String) :
    Except String Json × SessionFile × List HttpCall :=
  match ReadSessionFile st with
  | (.error e, st') => (.error e, st', [])
  | (.ok d, st') =>
    let call := HttpCall.get (baseUrl d ++ "/api2/json/nodes/" ++ nodeName ++ "/version")
      [] (authCookie d)
    match t call with
    | .error e => (.error e, st', [call])
    | .ok body => (unmarshalDataPayload body, st', [call])

/-- Embedding of `VMService.ListVMs`: GET `/api2/json/nodes/<node>/qemu`. -/
def ListVMs (t : Transport) (st : SessionFile) (nodeName : String) :
    Except String Json × SessionFile × List HttpCall :=
  match ReadSessionFile st with
  | (.error e, st') => (.error e, st', [])
  | (.ok d, st') =>
    let call := HttpCall.get (baseUrl d ++ "/api2/json/nodes/" ++ nodeName ++ "/qemu")
      [] (authCookie d)
    match t call with
    | .error e => (.error e, st', [call])
    | .ok body => (unmarshalDataPayload body, st', [call])

/-- Embedding of `VMService.GetVMStatus`: GET
`/api2/json/nodes/<node>/qemu/<vmid>/status/current`. -/
def GetVMStatus (t : Transport) (st : SessionFile) (nodeName : String) (vmid : Int) :
    Except String Json × SessionFile × List HttpCall :=
  match ReadSessionFile st with
  | (.error e, st') => (.error e, st', [])
  | (.ok d, st') =>
    let call := HttpCall.get (baseUrl d ++ "/api2/json/nodes/" ++ nodeName ++
      "/qemu/" ++ toString vmid ++ "/status/current") [] (authCookie d)
    match t call with
    | .error e => (.error e, st', [call])
    | .ok body => (unmarshalDataPayload body, st', [call])

/-- Embedding of `VMService.vmStatusAction`: POST (empty payload) to
`/api2/json/nodes/<node>/qemu/<vmid>/status/<action>` with the
anti-forgery header and auth cookie; the task id is the envelope's
`data` string. -/
def vmStatusAction (t : Transport) (st : SessionFile)
    (nodeName : String) (vmid : Int) (action : String) :
    Except String String × SessionFile × List HttpCall :=
  match ReadSessionFile st with
  | (.error e, st') => (.error e, st', [])
  | (.ok d, st') =>
    let headers :=
      [("Content-Type", "application/x-www-form-urlencoded; charset=UTF-8"),
       ("CSRFPreventionToken", d.response.data.csrfPreventionToken)]
    let call := HttpCall.post (baseUrl d ++ "/api2/json/nodes/" ++ nodeName ++
      "/qemu/" ++ toString vmid ++ "/status/" ++ action) "" headers (authCookie d)
    match t call with
    | .error e => (.error e, st', [call])
    | .ok body => (unmarshalDataString body, st', [call])

/-- Embedding of `VMService.StartVM`, delegating to `vmStatusAction`. -/
def StartVM (t : Transport) (st : SessionFile) (nodeName : String) (vmid : Int) :
    Except String String × SessionFile × List HttpCall :=
  vmStatusAction t st nodeName vmid "start"

/-- Embedding of `VMService.StopVM`, delegating to `vmStatusAction`. -/
def StopVM (t : Transport) (st : SessionFile) (nodeName : String) (vmid : Int) :
    Except String String × SessionFile × List HttpCall :=
  vmStatusAction t st nodeName vmid "stop"

/-- Embedding of `VMService.DeleteVM`: DELETE `/api2/json/nodes/<node>/qemu/<vmid>`
with the anti-forgery header and auth cookie. -/
def DeleteVM (t : Transport) (st : SessionFile) (nodeName : String) (vmid : Int) :
    Except String String × SessionFile × List HttpCall :=
  match ReadSessionFile st with
  | (.error e, st') => (.error e, st', [])
  | (.ok d, st') =>
    let headers := [("CSRFPreventionToken", d.response.data.csrfPreventionToken)]
    let call := HttpCall.delete (baseUrl d ++ "/api2/json/nodes/" ++ nodeName ++
      "/qemu/" ++ toString vmid) headers (authCookie d)
    match t call with
    | .error e => (.error e, st', [call])
    | .ok body => (unmarshalDataString body, st', [call])

/-! ### The concrete transport implementation (`services/http.go`)

`HttpService` builds a request from method, URL, payload, headers and
cookies and hands it to the underlying `http.Client`.  The client is a
function from requests to either a network error or a response carrying
a status code and a body-read outcome (`io.ReadAll` may itself fail).
Request construction (`http.NewRequest`) failure is not modelled. -/

/-- The request assembled by `HttpService.createRequest`. -/
structure HttpRequest where
  method : String
  url : String
  payload : Option String
  headers : List (String × String)
  cookies : List (String × String)

/-- An `http.Response` at the granularity the code observes: the status
code and the outcome of reading the body. -/
structure HttpResponse where
  statusCode : Int
  body : Except String String

/-- The underlying `http.Client.Do`. -/
def Client : Type := HttpRequest → Except String HttpResponse

/-- Embedding of `HttpService.createRequest`: assemble the request, setting every
header and adding every cookie. -/
def createRequest (method url : String) (payload : Option String)
    (headers cookies : List (String × String)) : HttpRequest :=
  { method := method, url := url, payload := payload,
    headers := headers, cookies := cookies }

namespace HttpService

/-- Embedding of `HttpService.Get`: execute the request and hand the still-open
response to the caller. -/
def Get (client : Client) (url : String)
    (headers cookies : List (String × String)) : Except String HttpResponse :=
  client (createRequest "GET" url none headers cookies)

/-- Embedding of `HttpService.Post`: execute the request, read the whole body, return
it as a string.  No status-code inspection occurs. -/
def Post (client : Client) (url payload : String)
    (headers cookies : List (String × String)) : Except String String :=
  match client (createRequest "POST" url (some payload) headers cookies) with
  | .error e => .error e
  | .ok resp => resp.body

/-- Embedding of `HttpService.Put`: same shape as `Post`. -/
def Put (client : Client) (url payload : String)
    (headers cookies : List (String × String)) : Except String String :=
  match client (createRequest "PUT" url (some payload) headers cookies) with
  | .error e => .error e
  | .ok resp => resp.body

/-- Embedding of `HttpService.Delete`: same shape as `Post`, without a payload. -/
def Delete (client : Client) (url : String)
    (headers cookies : List (String × String)) : Except String String :=
  match client (createRequest "DELETE" url none headers cookies) with
  | .error e => .error e
  | .ok resp => resp.body

end HttpService

/-! ### Helper lemmas -/

/-- Validation succeeds, returning the record itself, exactly on valid
records. -/
theorem validateSessionData_ok_iff (d : SessionData) :
    validateSessionData d = .ok d ↔ d.Valid := by
  unfold validateSessionData SessionData.Valid
  split_ifs with h1 h2 h3 h4 h5 h6 <;> simp_all

/-- Validation never returns a record other than its input. -/
theorem validateSessionData_ok_elim (d d' : SessionData)
    (h : validateSessionData d = .ok d') : d' = d := by
  unfold validateSessionData at h
  split_ifs at h
  all_goals simp_all

/-- Reading a stored record is validation, leaving the file unchanged. -/
theorem readSessionFile_stored (d : SessionData) :
    ReadSessionFile (.stored d) = (validateSessionData d, .stored d) := rfl

/-- Reading a valid stored record returns it. -/
theorem readSessionFile_stored_valid (d : SessionData) (h : d.Valid) :
    ReadSessionFile (.stored d) = (.ok d, .stored d) := by
  rw [readSessionFile_stored, (validateSessionData_ok_iff d).mpr h]

/-! ### Claim theorems -/

/-- C3: `ReadSessionFile` on a stored record succeeds exactly when all
six required fields are non-empty and the port is positive, returning
precisely the stored record (never a partial or defaulted one); for each
of the six fields, a record in which exactly that field is empty (or the
port non-positive) fails with the distinct error message naming that
field, and the six messages are pairwise distinct. -/
theorem read_validates_all_six_fields :
    (∀ d : SessionData, (ReadSessionFile (.stored d)).1 = .ok d ↔ d.Valid) ∧
    (∀ d d' : SessionData, (ReadSessionFile (.stored d)).1 = .ok d' → d' = d) ∧
    (∀ d : SessionData, d.server = "" → 0 < d.port → d.httpScheme ≠ "" →
      d.response.data.username ≠ "" → d.response.data.ticket ≠ "" →
      d.response.data.csrfPreventionToken ≠ "" →
      (ReadSessionFile (.stored d)).1 = .error msgMissingServer) ∧
    (∀ d : SessionData, d.server ≠ "" → d.port ≤ 0 → d.httpScheme ≠ "" →
      d.response.data.username ≠ "" → d.response.data.ticket ≠ "" →
      d.response.data.csrfPreventionToken ≠ "" →
      (ReadSessionFile (.stored d)).1 = .error msgMissingPort) ∧
    (∀ d : SessionData, d.server ≠ "" → 0 < d.port → d.httpScheme = "" →
      d.response.data.username ≠ "" → d.response.data.ticket ≠ "" →
      d.response.data.csrfPreventionToken ≠ "" →
      (ReadSessionFile (.stored d)).1 = .error msgMissingScheme) ∧
    (∀ d : SessionData, d.server ≠ "" → 0 < d.port → d.httpScheme ≠ "" →
      d.response.data.username = "" → d.response.data.ticket ≠ "" →
      d.response.data.csrfPreventionToken ≠ "" →
      (ReadSessionFile (.stored d)).1 = .error msgMissingUsername) ∧
    (∀ d : SessionData, d.server ≠ "" → 0 < d.port → d.httpScheme ≠ "" →
      d.response.data.username ≠ "" → d.response.data.ticket = "" →
      d.response.data.csrfPreventionToken ≠ "" →
      (ReadSessionFile (.stored d)).1 = .error msgMissingTicket) ∧
    (∀ d : SessionData, d.server ≠ "" → 0 < d.port → d.httpScheme ≠ "" →
      d.response.data.username ≠ "" → d.response.data.ticket ≠ "" →
      d.response.data.csrfPreventionToken = "" →
      (ReadSessionFile (.stored d)).1 = .error msgMissingToken) ∧
    [msgMissingServer, msgMissingPort, msgMissingScheme, msgMissingUsername,
      msgMissingTicket, msgMissingToken].Nodup := by
  refine ⟨?_, ?_, ?_, ?_, ?_, ?_, ?_, ?_, ?_⟩
  · intro d
    rw [readSessionFile_stored]
    exact validateSessionData_ok_iff d
  · intro d d' h
    rw [readSessionFile_stored] at h
    exact validateSessionData_ok_elim d d' h
  all_goals try
    (intro d h1 h2 h3 h4 h5 h6
     rw [readSessionFile_stored]
     unfold validateSessionData
     split_ifs <;> simp_all <;> omega)
  decide

/-- A concrete valid record used by several witnesses. -/
def sampleRecord : SessionData :=
  { server := "pve.example", port := 8006, httpScheme := "https",
    response := { data := { username := "root@pam", ticket := "TICKET",
                            csrfPreventionToken := "CSRF" } } }

/-- Witness for C3: the server-missing clause at a concrete record, and
the success clause at `sampleRecord`. -/
theorem read_validates_all_six_fields_witness :
    (ReadSessionFile (.stored { sampleRecord with server := "" })).1 =
        .error msgMissingServer ∧
      (ReadSessionFile (.stored sampleRecord)).1 = .ok sampleRecord :=
  ⟨read_validates_all_six_fields.2.2.1 { sampleRecord with server := "" }
      rfl (by decide) (by decide) (by decide) (by decide) (by decide),
    (read_validates_all_six_fields.1 sampleRecord).mpr (by decide)⟩

/-- C6: writing any record whose six required fields are non-empty (port
positive) and immediately reading it back yields exactly the written
record, field for field. -/
theorem write_read_roundtrip (st : SessionFile) (d : SessionData)
    (h : d.Valid) :
    ReadSessionFile (WriteSessionFile true st d).2 = (.ok d, .stored d) := by
  show ReadSessionFile (.stored d) = (.ok d, .stored d)
  exact readSessionFile_stored_valid d h

/-- Witness for C6 at `sampleRecord`, starting from an absent file. -/
theorem write_read_roundtrip_witness :
    ReadSessionFile (WriteSessionFile true .absent sampleRecord).2 =
      (.ok sampleRecord, .stored sampleRecord) :=
  write_read_roundtrip .absent sampleRecord (by decide)

/-- C7: updating the `server` field of a valid stored record changes
only the server: the resulting file stores a record with the new server
and the pre-update port, scheme and entire authentication payload. -/
theorem update_server_changes_only_server (d : SessionData) (v : String)
    (h : d.Valid) :
    UpdateSessionField true (.stored d) "server" (.str v) =
      (.ok (), .stored ⟨v, d.port, d.httpScheme, d.response⟩) := by
  unfold UpdateSessionField
  rw [readSessionFile_stored_valid d h]
  rfl

/-- Witness for C7 at `sampleRecord`. -/
theorem update_server_changes_only_server_witness :
    UpdateSessionField true (.stored sampleRecord) "server" (.str "newhost") =
      (.ok (), .stored ⟨"newhost", sampleRecord.port,
        sampleRecord.httpScheme, sampleRecord.response⟩) :=
  update_server_changes_only_server sampleRecord "newhost" (by decide)

/-- C8: for any field name outside `server`/`port`/`httpScheme`/
`response`, updating a valid stored record returns no error and rewrites
the record unchanged. -/
theorem update_unknown_field_is_noop (d : SessionData) (name : String)
    (value : GoValue) (h : d.Valid)
    (hn : name ∉ (["server", "port", "httpScheme", "response"] : List String)) :
    UpdateSessionField true (.stored d) name value = (.ok (), .stored d) := by
  simp only [List.mem_cons, List.mem_singleton, not_or] at hn
  obtain ⟨n1, n2, n3, n4, _⟩ := hn
  unfold UpdateSessionField
  rw [readSessionFile_stored_valid d h]
  simp only [n1, n2, n3, n4, if_false]
  rfl

/-- Witness for C8 at `sampleRecord` with the unknown field `hostname`. -/
theorem update_unknown_field_is_noop_witness :
    UpdateSessionField true (.stored sampleRecord) "hostname" (.str "x") =
      (.ok (), .stored sampleRecord) :=
  update_unknown_field_is_noop sampleRecord "hostname" (.str "x")
    (by decide) (by decide)

/-- A second concrete valid record (the one being written over
`sampleRecord` in the C5 counterexample). -/
def sampleRecord2 : SessionData :=
  { server := "other.example", port := 443, httpScheme := "https",
    response := { data := { username := "admin@pam", ticket := "TICKET2",
                            csrfPreventionToken := "CSRF2" } } }

/-- Counterexample to C5 as stated: `WriteSessionFile` truncates the
file (`os.Create`) before encoding, so a write whose encode step fails
returns an error yet leaves the file empty — the previously stored
record is not intact on disk. -/
theorem write_failure_destroys_prior_record :
    (WriteSessionFile false (.stored sampleRecord) sampleRecord2).1 =
        .error "encode error" ∧
      (WriteSessionFile false (.stored sampleRecord) sampleRecord2).2 ≠
        .stored sampleRecord := by
  exact ⟨rfl, by decide⟩

/-- C5 (amended): `read()` never alters a stored record (reading an
absent file only creates the empty placeholder); `updateField()` leaves
the prior on-disk record untouched whenever it fails before reaching its
write step — on a session-read failure or on a JSON-decode failure of a
`response` payload; a fault-free `write(record)` fully succeeds and
stores the record.  But no path through the write step is all-or-nothing:
`os.Create` truncates the file before encoding, so a write whose encode
step fails — standalone or inside `updateField` — leaves the session
file empty, not the previously stored record. -/
theorem session_store_failure_semantics :
    (∀ (st : SessionFile) (d : SessionData),
      WriteSessionFile true st d = (.ok (), .stored d)) ∧
    (∀ (st : SessionFile) (d : SessionData),
      WriteSessionFile false st d = (.error "encode error", .empty)) ∧
    (∀ st : SessionFile, st ≠ .absent → (ReadSessionFile st).2 = st) ∧
    (ReadSessionFile .absent).2 = .empty ∧
    (∀ (encodeOk : Bool) (st : SessionFile) (field : String) (value : GoValue)
       (e : String),
      (ReadSessionFile st).1 = .error e →
      UpdateSessionField encodeOk st field value = (.error e, (ReadSessionFile st).2)) ∧
    (∀ (encodeOk : Bool) (d : SessionData) (body e : String),
      d.Valid →
      unmarshalSessionDataResponse body = .error e →
      UpdateSessionField encodeOk (.stored d) "response" (.str body) =
        (.error e, .stored d)) ∧
    (∀ (d : SessionData) (v : String),
      d.Valid →
      UpdateSessionField false (.stored d) "server" (.str v) =
        (.error "encode error", .empty)) := by
  refine ⟨fun st d => rfl, fun st d => rfl, ?_, rfl, ?_, ?_, ?_⟩
  · intro st h
    cases st with
    | absent => exact absurd rfl h
    | empty => rfl
    | stored d => rfl
  · intro encodeOk st field value e h
    unfold UpdateSessionField
    rcases hr : ReadSessionFile st with ⟨res, st'⟩
    rw [hr] at h
    simp only at h
    subst h
    rfl
  · intro encodeOk d body e hv hdec
    unfold UpdateSessionField
    rw [readSessionFile_stored_valid d hv]
    simp only [hdec]
    rfl
  · intro d v hv
    unfold UpdateSessionField
    rw [readSessionFile_stored_valid d hv]
    rfl

/-- Witness for C5 (amended): at concrete inputs, an `updateField`
failing at the session read (empty file) and one failing at the JSON
decode of the `response` payload both leave the file as it was, a
fault-free write succeeds, and an `updateField` whose write's encode
step fails leaves the file empty rather than the prior record. -/
theorem session_store_failure_semantics_witness :
    UpdateSessionField true .empty "server" (.str "x") = (.error "EOF", .empty) ∧
      UpdateSessionField true (.stored sampleRecord) "response"
          (.str "invalid json") =
        (.error "invalid character looking for beginning of value",
         .stored sampleRecord) ∧
      WriteSessionFile true .empty sampleRecord = (.ok (), .stored sampleRecord) ∧
      UpdateSessionField false (.stored sampleRecord) "server" (.str "x") =
        (.error "encode error", .empty) :=
  ⟨session_store_failure_semantics.2.2.2.2.1 true .empty "server" (.str "x")
      "EOF" rfl,
   session_store_failure_semantics.2.2.2.2.2.1 true sampleRecord "invalid json"
      "invalid character looking for beginning of value" (by decide) rfl,
   session_store_failure_semantics.1 .empty sampleRecord,
   session_store_failure_semantics.2.2.2.2.2.2 sampleRecord "x" (by decide)⟩

/-- C2: every resource accessor (list nodes, node status, node version,
list VMs, VM status, VM actions, delete VM) and `ValidateSession` fail
closed: when reading the session record fails, the accessor returns the
session store's error unchanged (validate returns `false`) and issues no
transport call of any kind. -/
theorem accessors_fail_closed_without_session
    (t : Transport) (encodeOk : Bool) (st : SessionFile) (e : String)
    (node action : String) (vmid : Int)
    (h : (ReadSessionFile st).1 = .error e) :
    ListNodes t st = (.error e, (ReadSessionFile st).2, []) ∧
    GetNodeStatus t st node = (.error e, (ReadSessionFile st).2, []) ∧
    GetNodeVersion t st node = (.error e, (ReadSessionFile st).2, []) ∧
    ListVMs t st node = (.error e, (ReadSessionFile st).2, []) ∧
    GetVMStatus t st node vmid = (.error e, (ReadSessionFile st).2, []) ∧
    vmStatusAction t st node vmid action = (.error e, (ReadSessionFile st).2, []) ∧
    DeleteVM t st node vmid = (.error e, (ReadSessionFile st).2, []) ∧
    ValidateSession t encodeOk st = (false, (ReadSessionFile st).2, []) := by
  rcases hr : ReadSessionFile st with ⟨res, st'⟩
  rw [hr] at h
  simp only at h
  subst h
  unfold ListNodes GetNodeStatus GetNodeVersion ListVMs GetVMStatus
    vmStatusAction DeleteVM ValidateSession
  rw [hr]
  simp

/-- Witness for C2: all eight operations at an empty session file, with
a transport that would answer every call. -/
theorem accessors_fail_closed_without_session_witness :
    (ReadSessionFile .empty).1 = .error "EOF" ∧
      ListNodes (fun _ => .ok "") .empty = (.error "EOF", .empty, []) ∧
      ValidateSession (fun _ => .ok "") true .empty = (false, .empty, []) :=
  ⟨rfl,
   (accessors_fail_closed_without_session (fun _ => .ok "") true .empty "EOF"
      "node1" "start" 100 rfl).1,
   (accessors_fail_closed_without_session (fun _ => .ok "") true .empty "EOF"
      "node1" "start" 100 rfl).2.2.2.2.2.2.2⟩

/-- C1: for every readable stored session record, `ValidateSession`
issues exactly one transport call: a POST to the ticket endpoint that
simultaneously carries the stored (URL-escaped) ticket as the
`PVEAuthCookie` cookie and the stored anti-forgery token as the
`CSRFPreventionToken` header, with a form-encoded payload of the stored
username and the stored (URL-escaped) ticket as the password — for any
transport outcome. -/
theorem validate_posts_cookie_and_csrf_once
    (t : Transport) (encodeOk : Bool) (d : SessionData) (h : d.Valid) :
    (ValidateSession t encodeOk (.stored d)).2.2 =
      [HttpCall.post (ticketUri d.httpScheme d.server d.port)
        ("username=" ++ d.response.data.username ++ "&password=" ++
          queryEscape d.response.data.ticket)
        [("Content-Type", "application/x-www-form-urlencoded; charset=UTF-8"),
         ("CSRFPreventionToken", d.response.data.csrfPreventionToken)]
        [("PVEAuthCookie", queryEscape d.response.data.ticket)]] := by
  unfold ValidateSession
  rw [readSessionFile_stored_valid d h]
  simp only
  cases ht : t (HttpCall.post (ticketUri d.httpScheme d.server d.port)
      ("username=" ++ d.response.data.username ++ "&password=" ++
        queryEscape d.response.data.ticket)
      [("Content-Type", "application/x-www-form-urlencoded; charset=UTF-8"),
       ("CSRFPreventionToken", d.response.data.csrfPreventionToken)]
      [("PVEAuthCookie", queryEscape d.response.data.ticket)]) with
  | error e => rfl
  | ok body =>
    rcases hu : UpdateSessionField encodeOk (.stored d) "response" (.str body)
      with ⟨res, st2⟩
    cases res <;> simp [hu]

/-- Witness for C1 at `sampleRecord` with a transport that rejects the
renewal. -/
theorem validate_posts_cookie_and_csrf_once_witness :
    (ValidateSession (fun _ => .error "unauthorized") true
        (.stored sampleRecord)).2.2 =
      [HttpCall.post
        (ticketUri sampleRecord.httpScheme sampleRecord.server sampleRecord.port)
        ("username=" ++ sampleRecord.response.data.username ++ "&password=" ++
          queryEscape sampleRecord.response.data.ticket)
        [("Content-Type", "application/x-www-form-urlencoded; charset=UTF-8"),
         ("CSRFPreventionToken", sampleRecord.response.data.csrfPreventionToken)]
        [("PVEAuthCookie", queryEscape sampleRecord.response.data.ticket)]] :=
  validate_posts_cookie_and_csrf_once (fun _ => .error "unauthorized") true
    sampleRecord (by decide)

/-- The authentication payload the mock ticket endpoint returns in the
spec's successful-login scenario. -/
def mockTicketBody : String :=
  "\x7b\"data\":\x7b\"username\":\"u\",\"ticket\":\"t\",\"CSRFPreventionToken\":\"c\"\x7d\x7d"

/-- C4: `LoginToProxmox` writes a record taking server/port/scheme from
its arguments and the authentication payload from the decoded response;
it performs no write when the POST fails or when the body is not valid
JSON; and in the spec's mock scenario the subsequent read returns
exactly the written six field values. -/
theorem login_writes_only_on_decoded_response :
    (∀ (t : Transport) (encodeOk : Bool) (st : SessionFile) (server : String)
       (port : Int) (scheme u p e : String),
      t (HttpCall.post (ticketUri scheme server port)
          ("username=" ++ u ++ "&password=" ++ p ++ "&realm=pam&new-format=1")
          urlEncodedHeader []) = .error e →
      LoginToProxmox t encodeOk st server port scheme u p =
        (.error e, st,
         [HttpCall.post (ticketUri scheme server port)
            ("username=" ++ u ++ "&password=" ++ p ++ "&realm=pam&new-format=1")
            urlEncodedHeader []])) ∧
    (∀ (t : Transport) (encodeOk : Bool) (st : SessionFile) (server : String)
       (port : Int) (scheme u p body e : String),
      t (HttpCall.post (ticketUri scheme server port)
          ("username=" ++ u ++ "&password=" ++ p ++ "&realm=pam&new-format=1")
          urlEncodedHeader []) = .ok body →
      unmarshalSessionDataResponse body = .error e →
      LoginToProxmox t encodeOk st server port scheme u p =
        (.error e, st,
         [HttpCall.post (ticketUri scheme server port)
            ("username=" ++ u ++ "&password=" ++ p ++ "&realm=pam&new-format=1")
            urlEncodedHeader []])) ∧
    (∀ (t : Transport) (st : SessionFile) (server : String) (port : Int)
       (scheme u p body : String) (resp : SessionDataResponse),
      t (HttpCall.post (ticketUri scheme server port)
          ("username=" ++ u ++ "&password=" ++ p ++ "&realm=pam&new-format=1")
          urlEncodedHeader []) = .ok body →
      unmarshalSessionDataResponse body = .ok resp →
      LoginToProxmox t true st server port scheme u p =
        (.ok (), .stored ⟨server, port, scheme, resp⟩,
         [HttpCall.post (ticketUri scheme server port)
            ("username=" ++ u ++ "&password=" ++ p ++ "&realm=pam&new-format=1")
            urlEncodedHeader []])) ∧
    ((LoginToProxmox (fun _ => .ok mockTicketBody) true .absent
        "host" 8006 "https" "u" "p").1 = .ok () ∧
      (ReadSessionFile (LoginToProxmox (fun _ => .ok mockTicketBody) true .absent
          "host" 8006 "https" "u" "p").2.1).1 =
        .ok ⟨"host", 8006, "https", ⟨⟨"u", "t", "c"⟩⟩⟩) := by
  refine ⟨?_, ?_, ?_, ?_, ?_⟩
  · intro t encodeOk st server port scheme u p e hpost
    unfold LoginToProxmox
    simp only [hpost]
  · intro t encodeOk st server port scheme u p body e hpost hdec
    unfold LoginToProxmox
    simp only [hpost, hdec]
  · intro t st server port scheme u p body resp hpost hdec
    unfold LoginToProxmox
    simp only [hpost, hdec]
    rfl
  · rfl
  · rfl

/-- Witness for C4: the POST-failure clause at concrete arguments (state
untouched, no write), applied alongside the closed mock scenario. -/
theorem login_writes_only_on_decoded_response_witness :
    LoginToProxmox (fun _ => .error "connection refused") true
        (.stored sampleRecord) "host" 8006 "https" "u" "p" =
      (.error "connection refused", .stored sampleRecord,
       [HttpCall.post (ticketUri "https" "host" 8006)
          "username=u&password=p&realm=pam&new-format=1"
          urlEncodedHeader []]) :=
  login_writes_only_on_decoded_response.1 (fun _ => .error "connection refused")
    true (.stored sampleRecord) "host" 8006 "https" "u" "p"
    "connection refused" rfl

/-- C9: the transport's `Post`, `Put` and `Delete` return the response
body text with no error whenever the response's body can be read,
whatever its status code; responses differing only in status code are
indistinguishable at the transport boundary. -/
theorem transport_ignores_status_code :
    (∀ (client : Client) (url payload : String)
       (headers cookies : List (String × String)) (resp : HttpResponse) (b : String),
      client (createRequest "POST" url (some payload) headers cookies) = .ok resp →
      resp.body = .ok b →
      HttpService.Post client url payload headers cookies = .ok b) ∧
    (∀ (client : Client) (url payload : String)
       (headers cookies : List (String × String)) (resp : HttpResponse) (b : String),
      client (createRequest "PUT" url (some payload) headers cookies) = .ok resp →
      resp.body = .ok b →
      HttpService.Put client url payload headers cookies = .ok b) ∧
    (∀ (client : Client) (url : String)
       (headers cookies : List (String × String)) (resp : HttpResponse) (b : String),
      client (createRequest "DELETE" url none headers cookies) = .ok resp →
      resp.body = .ok b →
      HttpService.Delete client url headers cookies = .ok b) ∧
    (∀ (s₁ s₂ : Int) (bodyResult : Except String String) (url payload : String)
       (headers cookies : List (String × String)),
      HttpService.Post (fun _ => .ok ⟨s₁, bodyResult⟩) url payload headers cookies =
        HttpService.Post (fun _ => .ok ⟨s₂, bodyResult⟩) url payload headers cookies) := by
  refine ⟨?_, ?_, ?_, ?_⟩
  · intro client url payload headers cookies resp b hc hb
    unfold HttpService.Post
    rw [hc]
    exact hb
  · intro client url payload headers cookies resp b hc hb
    unfold HttpService.Put
    rw [hc]
    exact hb
  · intro client url headers cookies resp b hc hb
    unfold HttpService.Delete
    rw [hc]
    exact hb
  · intro s₁ s₂ bodyResult url payload headers cookies
    rfl

/-- Witness for C9: a 401 response with readable body is returned as a
plain success. -/
theorem transport_ignores_status_code_witness :
    HttpService.Post (fun _ => .ok ⟨401, .ok "permission denied"⟩)
        "https://h:8006/api2/json/nodes" "" [] [] = .ok "permission denied" :=
  transport_ignores_status_code.1 (fun _ => .ok ⟨401, .ok "permission denied"⟩)
    "https://h:8006/api2/json/nodes" "" [] [] ⟨401, .ok "permission denied"⟩
    "permission denied" rfl rfl

/-- A syntactically valid ticket-endpoint response whose decoded
authentication payload is all-empty. -/
def nullDataBody : String := "\x7b\"data\":null\x7d"

/-- C10: there is a transport response — the valid JSON
`\x7b"data":null\x7d` — for which login succeeds yet the session record
it wrote fails the subsequent read's validation. -/
theorem login_ok_but_session_invalid :
    (LoginToProxmox (fun _ => .ok nullDataBody) true .absent
        "host" 8006 "https" "u" "p").1 = .ok () ∧
      (ReadSessionFile (LoginToProxmox (fun _ => .ok nullDataBody) true .absent
          "host" 8006 "https" "u" "p").2.1).1 = .error msgMissingUsername :=
  ⟨rfl, rfl⟩

end ProxmoxCli
